import Mathlib

/-!
Verification of the configuration and session bootstrap subsystem of the
cf-deck dashboard (source file `helpers/settings.go`).

The Go code is shallowly embedded below.  Pure helper functions
(`getRedisSettings`, `getRedisService`, `getRedisURIFromParts`) become Lean
functions; the stateful `InitSettings` method becomes an explicit
state-passing function over a `Settings` record, with an event list recording
which session-backend objects were constructed, and with the fail-fast
panic/recover pattern represented by an explicit `PanicValue` routed through
the deferred recovery boundary (`mkPanicResult`).

External dependencies are modelled from their documented, observable
behaviour at the call sites the Go code uses:
  * `net/url.Parse` (only the fragment/scheme/query/authority/host path the
    resolver can reach; percent-decoding is modelled generically),
  * `go-cfenv` service lookup by tag,
  * the `redigo` connection pool (its numeric policy fields and the two
    closures the code installs in it),
  * `redistore`/`gorilla sessions` store construction (as data records).
-/

namespace CFDeck

/-- Go `error` values produced by the code under study.  `missingEnvVar`
stands for the `*ErrMissingEnvVar` type of the env accessor, `simple` for an
`errors.New` value with the given message, and `urlError` for the
`*url.Error` wrapper that `url.Parse` puts around parse failures. -/
inductive GoError where
  | missingEnvVar (name : String)
  | simple (msg : String)
  | urlError (op : String) (url : String) (err : GoError)
deriving DecidableEq, Repr

/-! ## List utilities shared by the `net/url` model -/

/-- Split at the first occurrence of `c`: returns the parts strictly before
and strictly after that occurrence, or `none` when `c` does not occur. -/
def cutFirst (c : Char) : List Char → Option (List Char × List Char)
  | [] => none
  | x :: xs =>
    if x = c then some ([], xs)
    else
      match cutFirst c xs with
      | none => none
      | some (a, b) => some (x :: a, b)

/-- Go `split(s, c, true)`: cut at the first occurrence, dropping the
separator; the whole string and an empty remainder when `c` is absent. -/
def splitCut (c : Char) (l : List Char) : List Char × List Char :=
  match cutFirst c l with
  | none => (l, [])
  | some (a, b) => (a, b)

/-- Go `split(s, c, false)`: cut at the first occurrence, keeping the
separator at the head of the remainder. -/
def splitKeep (c : Char) (l : List Char) : List Char × List Char :=
  match cutFirst c l with
  | none => (l, [])
  | some (a, b) => (a, c :: b)

/-- Split at the last occurrence of `c` (Go `strings.LastIndex`). -/
def lastSplit (c : Char) (l : List Char) : Option (List Char × List Char) :=
  match cutFirst c l.reverse with
  | none => none
  | some (x, y) => some (y.reverse, x.reverse)

theorem cutFirst_eq_none {c : Char} : ∀ {l : List Char}, c ∉ l → cutFirst c l = none
  | [], _ => rfl
  | x :: xs, h => by
    have hx : ¬(x = c) := fun hc => h (hc ▸ List.mem_cons_self x xs)
    have hxs : c ∉ xs := fun hm => h (List.mem_cons_of_mem x hm)
    simp [cutFirst, hx, cutFirst_eq_none hxs]

theorem cutFirst_append {c : Char} :
    ∀ {a : List Char} (b : List Char), c ∉ a → cutFirst c (a ++ c :: b) = some (a, b)
  | [], b, _ => by simp [cutFirst]
  | x :: xs, b, h => by
    have hx : ¬(x = c) := fun hc => h (hc ▸ List.mem_cons_self x xs)
    have hxs : c ∉ xs := fun hm => h (List.mem_cons_of_mem x hm)
    simp [cutFirst, hx, cutFirst_append b hxs]

theorem splitCut_eq_self {c : Char} {l : List Char} (h : c ∉ l) :
    splitCut c l = (l, []) := by
  simp [splitCut, cutFirst_eq_none h]

theorem splitKeep_eq_self {c : Char} {l : List Char} (h : c ∉ l) :
    splitKeep c l = (l, []) := by
  simp [splitKeep, cutFirst_eq_none h]

theorem lastSplit_eq_none {c : Char} {l : List Char} (h : c ∉ l) :
    lastSplit c l = none := by
  have : c ∉ l.reverse := by simpa using h
  simp [lastSplit, cutFirst_eq_none this]

theorem lastSplit_append {c : Char} {a b : List Char} (h : c ∉ b) :
    lastSplit c (a ++ c :: b) = some (a, b) := by
  have hrev : (a ++ c :: b).reverse = b.reverse ++ c :: a.reverse := by
    simp [List.reverse_append]
  have hb : c ∉ b.reverse := by simpa using h
  simp [lastSplit, hrev, cutFirst_append a.reverse hb]

theorem mem_of_getLast?_eq_some {c : Char} :
    ∀ {l : List Char}, l.getLast? = some c → c ∈ l
  | [x], h => by
    simp [List.getLast?] at h
    simp [h]
  | x :: y :: ys, h => by
    have : (y :: ys).getLast? = some c := by
      simpa [List.getLast?_cons_cons] using h
    exact List.mem_cons_of_mem x (mem_of_getLast?_eq_some this)

theorem mem_of_take_one_eq {c : Char} :
    ∀ {l : List Char}, l.take 1 = [c] → c ∈ l
  | x :: xs, h => by
    simp [List.take] at h
    simp [h]

/-- Characters a `List.all` bound excludes are not members. -/
theorem not_mem_of_all {p : Char → Bool} {l : List Char} (h : l.all p = true)
    {c : Char} (hc : p c = false) : c ∉ l := by
  intro hm
  have := List.all_eq_true.mp h c hm
  rw [hc] at this
  exact Bool.noConfusion this

/-! ## Model of the reachable part of `net/url.Parse` -/

def isHexDigit (c : Char) : Bool :=
  c.isDigit || ('a' ≤ c && c ≤ 'f') || ('A' ≤ c && c ≤ 'F')

def hexVal (c : Char) : Nat :=
  if c.isDigit then c.toNat - 48
  else if 'a' ≤ c && c ≤ 'f' then c.toNat - 87
  else c.toNat - 55

def hexChar (a b : Char) : Char := Char.ofNat (16 * hexVal a + hexVal b)

def escapeError : GoError := .simple "invalid URL escape"

/-- Go `unescape`: percent-decoding, failing on a malformed escape.  The
mode-specific refinements of `net/url` only differ on percent-escaped input,
which the code under study never produces. -/
def unescapeList : List Char → Except GoError (List Char)
  | [] => .ok []
  | c :: rest =>
    if c = '%' then
      match rest with
      | a :: b :: rest2 =>
        if isHexDigit a && isHexDigit b then
          match unescapeList rest2 with
          | .ok d => .ok (hexChar a b :: d)
          | .error e => .error e
        else .error escapeError
      | _ => .error escapeError
    else
      match unescapeList rest with
      | .ok d => .ok (c :: d)
      | .error e => .error e

theorem unescapeList_of_no_pct :
    ∀ {l : List Char}, '%' ∉ l → unescapeList l = .ok l
  | [], _ => rfl
  | c :: rest, h => by
    have hc : ¬(c = '%') := fun hc => h (hc ▸ List.mem_cons_self c rest)
    have hrest : '%' ∉ rest := fun hm => h (List.mem_cons_of_mem c hm)
    unfold unescapeList
    rw [if_neg hc, unescapeList_of_no_pct hrest]

/-- Go `getScheme`, accumulator style: `acc` holds the scheme candidate read
so far, reversed. -/
def getSchemeGo (acc : List Char) : List Char → Except GoError (List Char × List Char)
  | [] => .ok ([], acc.reverse)
  | c :: rest =>
    if c.isAlpha then getSchemeGo (c :: acc) rest
    else if c.isDigit || c = '+' || c = '-' || c = '.' then
      if acc.isEmpty then .ok ([], c :: rest) else getSchemeGo (c :: acc) rest
    else if c = ':' then
      if acc.isEmpty then .error (.simple "missing protocol scheme")
      else .ok (acc.reverse, rest)
    else .ok ([], acc.reverse ++ c :: rest)

def getScheme (l : List Char) : Except GoError (List Char × List Char) :=
  getSchemeGo [] l

/-- Go `validOptionalPort`: empty, or a colon followed by digits only. -/
def validOptionalPort : List Char → Bool
  | [] => true
  | ':' :: rest => rest.all Char.isDigit
  | _ => false

/-- Go `parseHost` for the inputs reachable here: bracketed hosts must close
their bracket and carry a valid optional port; otherwise everything after
the last colon must be a valid port; the host is then percent-decoded. -/
def parseHost (h : List Char) : Except GoError (List Char) :=
  if h.take 1 = ['['] then
    match lastSplit ']' h with
    | none => .error (.simple "missing right bracket in host")
    | some (_, after) =>
      if validOptionalPort after then unescapeList h
      else .error (.simple "invalid port after host")
  else
    match lastSplit ':' h with
    | none => unescapeList h
    | some (_, after) =>
      if validOptionalPort (':' :: after) then unescapeList h
      else .error (.simple "invalid port after host")

/-- The `url.Userinfo` read back by the resolver. -/
structure UserinfoC where
  username : List Char
  password : Option (List Char)
deriving DecidableEq, Repr

/-- Go `parseAuthority`: the userinfo is everything before the last `@`;
the host is parsed first; the userinfo is then cut at its first colon into
username and password, each percent-decoded. -/
def parseAuthority (authority : List Char) :
    Except GoError (Option UserinfoC × List Char) :=
  match lastSplit '@' authority with
  | none =>
    match parseHost authority with
    | .error e => .error e
    | .ok h => .ok (none, h)
  | some (userinfo, hostPart) =>
    match parseHost hostPart with
    | .error e => .error e
    | .ok h =>
      match cutFirst ':' userinfo with
      | none =>
        match unescapeList userinfo with
        | .error e => .error e
        | .ok un => .ok (some ⟨un, none⟩, h)
      | some (uname, pw) =>
        match unescapeList uname with
        | .error e => .error e
        | .ok un =>
          match unescapeList pw with
          | .error e => .error e
          | .ok p => .ok (some ⟨un, some p⟩, h)

/-- The fields of Go `url.URL` that the resolver can observe. -/
structure URLc where
  scheme : List Char
  opq : List Char
  user : Option UserinfoC
  host : List Char
  path : List Char
  rawQuery : List Char
  fragment : List Char
deriving DecidableEq, Repr

/-- Tail of Go `parse`: the `//`-authority rule followed by `setPath`. -/
def afterAuthority (sch rest rawQuery : List Char) : Except GoError URLc :=
  if rest.take 2 = ['/', '/'] ∧ (sch ≠ [] ∨ rest.take 3 ≠ ['/', '/', '/']) then
    match parseAuthority (splitKeep '/' (rest.drop 2)).1 with
    | .error e => .error e
    | .ok uh =>
      match unescapeList (splitKeep '/' (rest.drop 2)).2 with
      | .error e => .error e
      | .ok p =>
        .ok { scheme := sch, opq := [], user := uh.1, host := uh.2, path := p,
              rawQuery := rawQuery, fragment := [] }
  else
    match unescapeList rest with
    | .error e => .error e
    | .ok p =>
      .ok { scheme := sch, opq := [], user := none, host := [], path := p,
            rawQuery := rawQuery, fragment := [] }

/-- Whether the first of `:` and `/` occurring in `l` is the colon
(Go first-path-segment check for scheme-less URLs). -/
def colonBeforeSlash : List Char → Bool
  | [] => false
  | c :: rest =>
    if c = ':' then true
    else if c = '/' then false
    else colonBeforeSlash rest

/-- Go `parse(s, viaRequest := false)` on the pre-fragment part. -/
def urlParseRaw (s : List Char) : Except GoError URLc :=
  match getScheme s with
  | .error e => .error e
  | .ok sr =>
    let sch := sr.1.map Char.toLower
    let rest0 := sr.2
    let qr :=
      if rest0.getLast? = some '?' ∧ cutFirst '?' rest0.dropLast = none then
        (rest0.dropLast, ([] : List Char))
      else splitCut '?' rest0
    if qr.1.take 1 = ['/'] then afterAuthority sch qr.1 qr.2
    else if sch ≠ [] then
      .ok { scheme := sch, opq := qr.1, user := none, host := [], path := [],
            rawQuery := qr.2, fragment := [] }
    else if colonBeforeSlash qr.1 then
      .error (.simple "first path segment in URL cannot contain colon")
    else afterAuthority sch qr.1 qr.2

/-- Go `url.Parse`: fragment split, main parse, fragment decoding, and the
`*url.Error` wrapper around any failure. -/
def urlParse (raw : List Char) : Except GoError URLc :=
  match urlParseRaw (splitCut '#' raw).1 with
  | .error e => .error (.urlError "parse" (String.mk raw) e)
  | .ok u =>
    match unescapeList (splitCut '#' raw).2 with
    | .error e => .error (.urlError "parse" (String.mk raw) e)
    | .ok f => .ok { u with fragment := f }

/-- The unreserved URI characters (RFC 3986): letters, digits, hyphen,
period, underscore, tilde.  These pass through every stage of the parser
untouched. -/
def isUnreservedChar (c : Char) : Bool :=
  c.isAlpha || c.isDigit || c = '-' || c = '.' || c = '_' || c = '~'

/-- Lines 251-261 of `settings.go`: parse the URI, then read back `u.Host`
and the password of `u.User` (empty when absent). -/
def hostAndPassword (uri : List Char) : Except GoError (List Char × List Char) :=
  match urlParse uri with
  | .error e => .error e
  | .ok u =>
    .ok (u.host,
      match u.user with
      | some ui => ui.password.getD []
      | none => [])

/-! ## Model of the `go-cfenv` service binding -/

/-- A credential value in a service binding: the Go code only distinguishes
string values (the `.(string)` type assertion) from everything else. -/
inductive CredValue where
  | str (s : String)
  | nonString
deriving DecidableEq, Repr

/-- A `cfenv.Service`: tag list and credentials map. -/
structure Service where
  name : String
  tags : List String
  credentials : List (String × CredValue)
deriving DecidableEq, Repr

/-- A `cfenv.App` as far as the code reads it: its bound services. -/
structure CFApp where
  services : List Service
deriving DecidableEq, Repr

/-- Go `strings.EqualFold` restricted to the ASCII tags in play. -/
def eqFold (a b : String) : Bool :=
  a.toList.map Char.toLower == b.toList.map Char.toLower

/-- `cfenv` `Services.WithTag`: all services carrying the tag
(case-insensitively); an error when none do. -/
def withTag (ss : List Service) (tag : String) : Except GoError (List Service) :=
  match ss.filter (fun svc => svc.tags.any (fun t => eqFold t tag)) with
  | [] => .error (.simple ("no services with tag " ++ tag))
  | found => .ok found

/-- The Go pattern `v, ok := service.Credentials[k].(string)`:
`some v` only when the key is present with a string value. -/
def credString (svc : Service) (k : String) : Option String :=
  match svc.credentials.lookup k with
  | some (.str s) => some s
  | _ => none

/-! ## The connection-string resolver (`settings.go` lines 238-303) -/

/-- `getRedisURIFromParts` (lines 286-303): legacy reconstruction of the URI
from the `hostname`, `port` and `password` credential fields.  Note the
error for a missing `hostname` names a `"host"` key, as in the source. -/
def getRedisURIFromParts (svc : Service) : Except GoError String :=
  match credString svc "hostname" with
  | none => .error (.simple "Could not find \"host\" key")
  | some host =>
    match credString svc "port" with
    | none => .error (.simple "Could not find \"port\" key")
    | some port =>
      match credString svc "password" with
      | none => .error (.simple "Could not find \"password\" key")
      | some password =>
        .ok ("redis://:" ++ password ++ "@" ++ host ++ ":" ++ port)

/-- `getRedisService` (lines 264-283): find a service tagged `redis` and read
its `uri` credential; when that is not a string, fall back to the legacy
three-field reconstruction, but replace its error with a generic one. -/
def getRedisService (cf : Option CFApp) : Except GoError String :=
  match cf with
  | none => .error (.simple "Empty Cloud Foundry environment")
  | some app =>
    match withTag app.services "redis" with
    | .error e => .error e
    | .ok services =>
      match services with
      | [] => .error (.simple "Could not find service with tag \"redis\"")
      | svc :: _ =>
        match credString svc "uri" with
        | some uri => .ok uri
        | none =>
          match getRedisURIFromParts svc with
          | .ok uri => .ok uri
          | .error _ => .error (.simple "Could not parse redis uri")

/-- The process environment: association list of set variables.
`osGetenv` mirrors Go `os.Getenv`, returning the empty string for an
unset variable. -/
def Env : Type := List (String × String)

def osGetenv (env : Env) (k : String) : String :=
  (List.lookup k env).getD ""

/-- `getRedisSettings` (lines 238-262): the three-step resolution chain,
returning the host address and password. -/
def getRedisSettings (env : Env) (cf : Option CFApp) :
    Except GoError (String × String) :=
  let uri0 := osGetenv env "REDIS_URI"
  let pr : String × Option GoError :=
    if uri0 = "" then
      match getRedisService cf with
      | .ok u => (u, none)
      | .error e => ("", some e)
    else (uri0, none)
  let uri2 := if pr.1 = "" ∨ pr.2.isSome then "redis://localhost:6379" else pr.1
  match hostAndPassword uri2.toList with
  | .error e => .error e
  | .ok hp => .ok (String.mk hp.1, String.mk hp.2)

/-! ## The redis pool, its dial closure, and the health checks -/

/-- Outcomes the external world supplies to one borrowed connection: the
result of `redis.Dial`, of `c.Do("AUTH", ...)` and of `c.Do("PING")`. -/
structure ConnWorld where
  dialErr : Option GoError
  authErr : Option GoError
  pingErr : Option GoError
deriving DecidableEq, Repr

/-- A live connection as the dial closure can return it; `authSent` records
whether an `AUTH` command was issued on it. -/
structure Conn where
  authSent : Bool
deriving DecidableEq, Repr

/-- The timeouts passed to `redis.Dial` (lines 161-164). -/
structure DialOpts where
  connectTimeoutSeconds : Nat
  readTimeoutSeconds : Nat
  writeTimeoutSeconds : Nat
deriving DecidableEq, Repr

/-- The three `redis.DialXxxTimeout` options of the dial call. -/
def redisDialOpts : DialOpts :=
  { connectTimeoutSeconds := 10, readTimeoutSeconds := 10, writeTimeoutSeconds := 10 }

/-- `redis.Dial("tcp", address, ...)` as the closure calls it. -/
def redisDialRaw (_opts : DialOpts) (_address : String) (cw : ConnWorld) :
    Except GoError Conn :=
  match cw.dialErr with
  | some e => .error e
  | none => .ok { authSent := false }

/-- What one invocation of the pool `Dial` closure produces. -/
structure DialResult where
  conn : Option Conn
  err : Option GoError
  closedConn : Bool
deriving DecidableEq, Repr

/-- The `Dial` closure of lines 156-175, verbatim: after a successful
connect, when a password is present the closure issues `AUTH` — but its
`if` tests the captured outer variable `err` (always nil once the pool is
built), not `authErr`, so the `AUTH` outcome never reaches the result. -/
def redisDialFn (address password : String) (capturedErr : Option GoError)
    (cw : ConnWorld) : DialResult :=
  match redisDialRaw redisDialOpts address cw with
  | .error e => { conn := none, err := some e, closedConn := false }
  | .ok c =>
    if password ≠ "" then
      -- c.Do("AUTH", password) runs here; its error is cw.authErr.
      if capturedErr.isSome then
        -- source: `if _, authErr := c.Do("AUTH", password); err != nil`
        { conn := none, err := cw.authErr, closedConn := true }
      else { conn := some { c with authSent := true }, err := none, closedConn := false }
    else { conn := some c, err := none, closedConn := false }

/-- The `TestOnBorrow` closure of lines 152-155: issue `PING`, return its
error. -/
def testOnBorrowFn (cw : ConnWorld) : Option GoError := cw.pingErr

/-- The `redis.Pool` literal of lines 149-176 as data: its numeric policy
fields plus the values captured by its `Dial` closure (the closure itself is
`redisDialFn dialAddress dialPassword dialCapturedErr`). -/
structure RedisPool where
  maxIdle : Nat
  idleTimeoutSeconds : Nat
  dialAddress : String
  dialPassword : String
  dialCapturedErr : Option GoError
deriving DecidableEq, Repr

/-- The pool exactly as `InitSettings` constructs it; at that point the
captured `err` is nil (the code returned early otherwise). -/
def mkRedisPool (address password : String) : RedisPool :=
  { maxIdle := 10, idleTimeoutSeconds := 240, dialAddress := address,
    dialPassword := password, dialCapturedErr := none }

/-- The two health-check closures `InitSettings` can install. -/
inductive HealthCheck where
  | alwaysTrue
  | redisPing (pool : RedisPool)
deriving DecidableEq, Repr

/-- Run a health check against one borrowed connection: the file variant
returns true unconditionally (line 216); the redis variant issues `PING`
and reports failure as `false` (lines 193-202). -/
def runHealthCheck : HealthCheck → ConnWorld → Bool
  | .alwaysTrue, _ => true
  | .redisPing _, cw => cw.pingErr.isNone

/-! ## Session stores and cookie options -/

/-- `gorilla/sessions.Options` as set on both stores. -/
structure SessionOptions where
  httpOnly : Bool
  maxAge : Nat
  path : String
  secure : Bool
deriving DecidableEq, Repr

/-- The two store variants, with the maximum entry length and key material
they were built with. -/
inductive SessionStore where
  | redisStore (pool : RedisPool) (maxLength : Nat) (options : SessionOptions)
      (keyPairs : String)
  | filesystemStore (dir : String) (maxLength : Nat) (options : SessionOptions)
      (keyPairs : String)
deriving DecidableEq, Repr

/-- `expirationConstant` (line 25). -/
def expirationConstant : Nat := 60 * 60 * 24 * 7

/-- Lines 204-213: the filesystem store with `MaxLength(4096*4)` and the
fixed cookie options. -/
def buildFileStore (secureCookies : Bool) (key : String) : SessionStore :=
  .filesystemStore "" (4096 * 4)
    { httpOnly := true, maxAge := expirationConstant, path := "/",
      secure := secureCookies } key

/-- Lines 178-188: the redis store over the shared pool, with
`SetMaxLength(4096*4)` and the same cookie options. -/
def buildRedisStore (pool : RedisPool) (secureCookies : Bool) (key : String) :
    SessionStore :=
  .redisStore pool (4096 * 4)
    { httpOnly := true, maxAge := expirationConstant, path := "/",
      secure := secureCookies } key

/-! ## The Env Accessor (not under `src/`; modelled from the spec) -/

/-- Modelled from the spec: the environment-variable name constants of the
Env Accessor.  The spec abstracts the concrete names; what matters below is
that they are pairwise distinct and distinct from `REDIS_URI`. -/
def basePathEnvVar : String := "BASE_PATH"
def hostnameEnvVar : String := "HOSTNAME"
def apiURLEnvVar : String := "CONSOLE_API"
def loginURLEnvVar : String := "LOGIN_URL"
def uaaURLEnvVar : String := "UAA_URL"
def logURLEnvVar : String := "LOG_URL"
def pprofEnabledEnvVar : String := "PPROF_ENABLED"
def buildInfoEnvVar : String := "BUILD_INFO"
def localCFEnvVar : String := "LOCAL_CF"
def secureCookiesEnvVar : String := "SECURE_COOKIES"
def clientIDEnvVar : String := "CONSOLE_CLIENT_ID"
def clientSecretEnvVar : String := "CONSOLE_CLIENT_SECRET"
def sessionBackendEnvVar : String := "SESSION_BACKEND"
def sessionKeyEnvVar : String := "SESSION_KEY"
def smtpHostEnvVar : String := "SMTP_HOST"
def smtpPortEnvVar : String := "SMTP_PORT"
def smtpUserEnvVar : String := "SMTP_USER"
def smtpPassEnvVar : String := "SMTP_PASS"
def smtpFromEnvVar : String := "SMTP_FROM"
def ticSecretEnvVar : String := "TIC_SECRET"

/-- Modelled from the spec: `EnvVars.Get(key, default)` returns the
environment value, or the default when the variable is absent (empty). -/
def envVarsGet (env : Env) (k dflt : String) : String :=
  if osGetenv env k = "" then dflt else osGetenv env k

/-- Modelled from the spec: `EnvVars.BoolGet(key)` parses a boolean-ish
string (the `strconv.ParseBool` truth set), treating absent or unparseable
values as false without failing. -/
def boolGet (env : Env) (k : String) : Bool :=
  match osGetenv env k with
  | "1" | "t" | "T" | "TRUE" | "true" | "True" => true
  | _ => false

/-- A value raised through the fail-fast channel.  `errMissingEnvVar` is the
`*ErrMissingEnvVar` that `EnvVars.MustGet` raises; `otherValue` stands for
any raised value of a different type. -/
inductive PanicValue where
  | errMissingEnvVar (name : String)
  | otherValue (tag : String)
deriving DecidableEq, Repr

/-- What the deferred recovery of lines 94-107 does with a raised value. -/
inductive Recovered where
  | toError (e : GoError)
  | repanic (v : PanicValue)
deriving DecidableEq, Repr

/-- Lines 94-107: the recover boundary converts the raised value into an
error result exactly when it is an `*ErrMissingEnvVar`; anything else is
re-raised. -/
def recoverBoundary : PanicValue → Recovered
  | .errMissingEnvVar n => .toError (.missingEnvVar n)
  | v => .repanic v

/-! ## The Settings aggregate and InitSettings -/

/-- `oauth2.Config` as built at lines 126-135. -/
structure OAuthConfig where
  clientID : String
  clientSecret : String
  redirectURL : String
  scopes : List String
  authURL : String
  tokenURL : String
deriving DecidableEq, Repr

/-- `clientcredentials.Config` as built at lines 222-227. -/
structure ClientCredsConfig where
  clientID : String
  clientSecret : String
  scopes : List String
  tokenURL : String
deriving DecidableEq, Repr

/-- The `Settings` receiver.  Field defaults are the Go zero values the
caller-allocated struct holds before `InitSettings` runs. -/
structure Settings where
  basePath : String := ""
  appURL : String := ""
  consoleAPI : String := ""
  loginURL : String := ""
  uaaURL : String := ""
  logURL : String := ""
  pprofEnabled : Bool := false
  buildInfo : String := ""
  localCF : Bool := false
  secureCookies : Bool := false
  oauthConfig : Option OAuthConfig := none
  stateGeneratorSet : Bool := false
  sessions : Option SessionStore := none
  sessionBackend : String := ""
  sessionBackendHealthCheck : Option HealthCheck := none
  highPrivilegedOauthConfig : Option ClientCredsConfig := none
  smtpFrom : String := ""
  smtpHost : String := ""
  smtpPass : String := ""
  smtpPort : String := ""
  smtpUser : String := ""
  ticSecret : String := ""
deriving DecidableEq, Repr

def defaultSettings : Settings := {}

/-- Construction side effects of `InitSettings` that claims observe. -/
inductive Event where
  | createdRedisPool
  | createdRedisStore
  | createdFileStore
deriving DecidableEq, Repr

/-- Behaviour of the external store constructor `NewRediStoreWithPool`
(it dials and pings, so it can fail). -/
structure World where
  newRediStoreErr : Option GoError
deriving DecidableEq, Repr

def w0 : World := { newRediStoreErr := none }

/-- The outcome of one `InitSettings` call: a normal return with the receiver
state, the construction events and the returned error, or an escaped panic
(a raised value the recover boundary re-raised). -/
inductive InitResult where
  | returned (s : Settings) (events : List Event) (err : Option GoError)
  | panicked (s : Settings) (events : List Event) (v : PanicValue)
deriving DecidableEq, Repr

/-- Route a raised value through the deferred recover of lines 94-107:
an `*ErrMissingEnvVar` becomes the returned error, anything else escapes. -/
def mkPanicResult (s : Settings) (ev : List Event) (v : PanicValue) : InitResult :=
  match recoverBoundary v with
  | .toError e => .returned s ev (some e)
  | .repanic v => .panicked s ev v

def settingsOf : InitResult → Settings
  | .returned s _ _ => s
  | .panicked s _ _ => s

def eventsOf : InitResult → List Event
  | .returned _ ev _ => ev
  | .panicked _ ev _ => ev

def errOf : InitResult → Option GoError
  | .returned _ _ e => e
  | .panicked _ _ _ => none

def isPanic : InitResult → Bool
  | .returned _ _ _ => false
  | .panicked _ _ _ => true

/-- The fixed scope set of the OAuth client (line 130). -/
def oauthScopes : List String :=
  ["cloud_controller.read", "cloud_controller.write", "cloud_controller.admin",
   "scim.read", "openid"]

/-- The fixed scope set of the elevated-privilege client (line 225). -/
def highPrivScopes : List String :=
  ["scim.invite", "cloud_controller.admin", "scim.read"]

def insecureCookiesMsg : String :=
  "cannot run with insecure cookies when targeting a production CF environment"

/-- Lines 220-235 of `InitSettings`: gob registration, the
elevated-privilege client-credentials config, the mail-relay fields and the
final `return nil`.  Factored out of `initSettingsGo` for readability. -/
def afterBackend (env : Env) (s : Settings) (ev : List Event) : InitResult :=
  if osGetenv env clientIDEnvVar = "" then
    mkPanicResult s ev (.errMissingEnvVar clientIDEnvVar) else
  if osGetenv env clientSecretEnvVar = "" then
    mkPanicResult s ev (.errMissingEnvVar clientSecretEnvVar) else
  if osGetenv env uaaURLEnvVar = "" then
    mkPanicResult s ev (.errMissingEnvVar uaaURLEnvVar) else
  let hp : ClientCredsConfig :=
    { clientID := osGetenv env clientIDEnvVar,
      clientSecret := osGetenv env clientSecretEnvVar,
      scopes := highPrivScopes,
      tokenURL := osGetenv env uaaURLEnvVar ++ "/oauth/token" }
  let t1 := { s with highPrivilegedOauthConfig := some hp }
  if osGetenv env smtpFromEnvVar = "" then
    mkPanicResult t1 ev (.errMissingEnvVar smtpFromEnvVar) else
  let t2 := { t1 with smtpFrom := osGetenv env smtpFromEnvVar }
  if osGetenv env smtpHostEnvVar = "" then
    mkPanicResult t2 ev (.errMissingEnvVar smtpHostEnvVar) else
  let t3 := { t2 with smtpHost := osGetenv env smtpHostEnvVar }
  let t4 := { t3 with smtpPass := envVarsGet env smtpPassEnvVar "" }
  let t5 := { t4 with smtpPort := envVarsGet env smtpPortEnvVar "" }
  let t6 := { t5 with smtpUser := envVarsGet env smtpUserEnvVar "" }
  let t7 := { t6 with ticSecret := envVarsGet env ticSecretEnvVar "" }
  .returned t7 ev none

/-- The `default` arm of the session-backend switch (lines 203-217): the
filesystem store.  The `MustGet` of the session key happens while the
constructor arguments are evaluated, so a missing key aborts before the
store exists. -/
def fileCase (env : Env) (s12 : Settings) : InitResult :=
  if osGetenv env sessionKeyEnvVar = "" then
    mkPanicResult s12 [] (.errMissingEnvVar sessionKeyEnvVar) else
  let s13 := { s12 with
    sessions := some (buildFileStore s12.secureCookies (osGetenv env sessionKeyEnvVar)),
    sessionBackend := "file",
    sessionBackendHealthCheck := some .alwaysTrue }
  afterBackend env s13 [.createdFileStore]

/-- Lines 177-202 of the `redis` arm, after the pool literal exists: the
session key is read (argument evaluation), the external store constructor
runs, and on success the store and the ping health check are installed. -/
def redisCaseWithPool (env : Env) (w : World) (s12 : Settings) (pool : RedisPool) :
    InitResult :=
  if osGetenv env sessionKeyEnvVar = "" then
    mkPanicResult s12 [.createdRedisPool] (.errMissingEnvVar sessionKeyEnvVar) else
  match w.newRediStoreErr with
  | some e => .returned s12 [.createdRedisPool] (some e)
  | none =>
    let s13 := { s12 with
      sessions := some (buildRedisStore pool s12.secureCookies
        (osGetenv env sessionKeyEnvVar)),
      sessionBackend := "redis",
      sessionBackendHealthCheck := some (.redisPing pool) }
    afterBackend env s13 [.createdRedisPool, .createdRedisStore]

/-- The `redis` arm of the switch (lines 143-202): resolve the connection
string; a resolver error returns immediately; otherwise the pool literal of
lines 149-176 is constructed. -/
def redisCase (env : Env) (cf : Option CFApp) (w : World) (s12 : Settings) :
    InitResult :=
  match getRedisSettings env cf with
  | .error e => .returned s12 [] (some e)
  | .ok ap => redisCaseWithPool env w s12 (mkRedisPool ap.1 ap.2)

/-- The session-backend switch of line 142: `"redis"` selects the cache
variant, anything else (unset or unrecognized) the file variant. -/
def sessionSwitch (env : Env) (cf : Option CFApp) (w : World) (s12 : Settings) :
    InitResult :=
  if envVarsGet env sessionBackendEnvVar "" = "redis" then redisCase env cf w s12
  else fileCase env s12

/-- `InitSettings` (lines 93-236), step by step in source order.  Each
`MustGet` that finds an empty value raises `*ErrMissingEnvVar`, which the
deferred recover converts via `mkPanicResult`; every field assignment
mutates the receiver, so the state reached before a failure is part of the
result. -/
def initSettingsGo (env : Env) (cf : Option CFApp) (w : World) (s0 : Settings) :
    InitResult :=
  let s1 := { s0 with basePath := envVarsGet env basePathEnvVar "" }
  if osGetenv env hostnameEnvVar = "" then
    mkPanicResult s1 [] (.errMissingEnvVar hostnameEnvVar) else
  let s2 := { s1 with appURL := osGetenv env hostnameEnvVar }
  if osGetenv env apiURLEnvVar = "" then
    mkPanicResult s2 [] (.errMissingEnvVar apiURLEnvVar) else
  let s3 := { s2 with consoleAPI := osGetenv env apiURLEnvVar }
  if osGetenv env loginURLEnvVar = "" then
    mkPanicResult s3 [] (.errMissingEnvVar loginURLEnvVar) else
  let s4 := { s3 with loginURL := osGetenv env loginURLEnvVar }
  if osGetenv env uaaURLEnvVar = "" then
    mkPanicResult s4 [] (.errMissingEnvVar uaaURLEnvVar) else
  let s5 := { s4 with uaaURL := osGetenv env uaaURLEnvVar }
  if osGetenv env logURLEnvVar = "" then
    mkPanicResult s5 [] (.errMissingEnvVar logURLEnvVar) else
  let s6 := { s5 with logURL := osGetenv env logURLEnvVar }
  let s7 := { s6 with pprofEnabled := boolGet env pprofEnabledEnvVar }
  let s8 := { s7 with buildInfo := envVarsGet env buildInfoEnvVar "developer-build" }
  let s9 := { s8 with localCF := boolGet env localCFEnvVar }
  let s10 := { s9 with secureCookies := boolGet env secureCookiesEnvVar }
  -- line 121: the secure-cookies safeguard
  if s10.localCF = false ∧ s10.secureCookies = false then
    .returned s10 [] (some (.simple insecureCookiesMsg)) else
  -- lines 126-135: the OAuth client literal (field initializers in order)
  if osGetenv env clientIDEnvVar = "" then
    mkPanicResult s10 [] (.errMissingEnvVar clientIDEnvVar) else
  if osGetenv env clientSecretEnvVar = "" then
    mkPanicResult s10 [] (.errMissingEnvVar clientSecretEnvVar) else
  if osGetenv env loginURLEnvVar = "" then
    mkPanicResult s10 [] (.errMissingEnvVar loginURLEnvVar) else
  if osGetenv env uaaURLEnvVar = "" then
    mkPanicResult s10 [] (.errMissingEnvVar uaaURLEnvVar) else
  let oc : OAuthConfig :=
    { clientID := osGetenv env clientIDEnvVar,
      clientSecret := osGetenv env clientSecretEnvVar,
      redirectURL := s10.appURL ++ "/oauth2callback",
      scopes := oauthScopes,
      authURL := osGetenv env loginURLEnvVar ++ "/oauth/authorize",
      tokenURL := osGetenv env uaaURLEnvVar ++ "/oauth/token" }
  let s11 := { s10 with oauthConfig := some oc }
  let s12 := { s11 with stateGeneratorSet := true }
  -- lines 142-217: the session-backend switch
  sessionSwitch env cf w s12

/-! ## Concrete fixtures -/

/-- A complete environment (every required variable set); the backend
selector is unset, so the file backend is chosen. -/
def baseEnvFile : Env :=
  [(hostnameEnvVar, "https://console.example.gov"),
   (apiURLEnvVar, "https://api.example.gov"),
   (loginURLEnvVar, "https://login.example.gov"),
   (uaaURLEnvVar, "https://uaa.example.gov"),
   (logURLEnvVar, "https://log.example.gov"),
   (secureCookiesEnvVar, "true"),
   (clientIDEnvVar, "client-id"),
   (clientSecretEnvVar, "client-sec"),
   (sessionKeyEnvVar, "skey"),
   (smtpFromEnvVar, "noreply@example.gov"),
   (smtpHostEnvVar, "smtp.example.gov")]

/-- The same environment with the redis backend selected. -/
def baseEnvRedis : Env := (sessionBackendEnvVar, "redis") :: baseEnvFile

/-- Remove one variable from an environment. -/
def removeKey (env : Env) (k : String) : Env := env.filter (fun p => p.1 ≠ k)

/-- A legacy redis service binding without `uri`, `hostname`, `port` or
`password` credentials. -/
def svcOld : Service := { name := "old-redis", tags := ["redis"], credentials := [] }

def cfOld : Option CFApp := some { services := [svcOld] }

/-- A service binding carrying the spec example URI credential. -/
def cfURI : Option CFApp :=
  some { services :=
    [{ name := "aws-redis", tags := ["redis"],
       credentials := [("uri", .str "redis://:secret@cachehost:6380")] }] }

/-- A legacy binding with only `hostname`. -/
def svcHostOnly : Service :=
  { name := "legacy", tags := ["redis"],
    credentials := [("hostname", .str "legacy-host")] }

/-- A legacy binding with `hostname` and `port` but no `password`. -/
def svcHostPort : Service :=
  { name := "legacy", tags := ["redis"],
    credentials := [("hostname", .str "legacy-host"), ("port", .str "6379")] }

def envInsecure : Env := removeKey baseEnvFile secureCookiesEnvVar

/-! ## Helper run lemmas -/

/-- Any run in which the five leading required variables are present and
both boolean flags are false stops at the line-121 safeguard: it returns the
insecure-cookies error with the receiver holding all fields assigned so far
and no construction event. -/
theorem initSettings_insecure (env : Env) (cf : Option CFApp) (w : World) (s0 : Settings)
    (h1 : osGetenv env hostnameEnvVar ≠ "") (h2 : osGetenv env apiURLEnvVar ≠ "")
    (h3 : osGetenv env loginURLEnvVar ≠ "") (h4 : osGetenv env uaaURLEnvVar ≠ "")
    (h5 : osGetenv env logURLEnvVar ≠ "")
    (hl : boolGet env localCFEnvVar = false) (hs : boolGet env secureCookiesEnvVar = false) :
    initSettingsGo env cf w s0 =
      .returned
        { s0 with
          basePath := envVarsGet env basePathEnvVar "",
          appURL := osGetenv env hostnameEnvVar,
          consoleAPI := osGetenv env apiURLEnvVar,
          loginURL := osGetenv env loginURLEnvVar,
          uaaURL := osGetenv env uaaURLEnvVar,
          logURL := osGetenv env logURLEnvVar,
          pprofEnabled := boolGet env pprofEnabledEnvVar,
          buildInfo := envVarsGet env buildInfoEnvVar "developer-build",
          localCF := false,
          secureCookies := false }
        [] (some (.simple insecureCookiesMsg)) := by
  unfold initSettingsGo
  rw [if_neg h1, if_neg h2, if_neg h3, if_neg h4, if_neg h5]
  simp only [hl, hs, and_self, if_true]

/-- Selector equal to `"redis"`: the switch takes the redis arm. -/
theorem sessionSwitch_redis {env : Env} {cf : Option CFApp} {w : World} {s12 : Settings}
    (hsel : envVarsGet env sessionBackendEnvVar "" = "redis") :
    sessionSwitch env cf w s12 = redisCase env cf w s12 := by
  unfold sessionSwitch
  rw [if_pos hsel]

/-- Selector not `"redis"`: the switch takes the default (file) arm. -/
theorem sessionSwitch_file {env : Env} {cf : Option CFApp} {w : World} {s12 : Settings}
    (hsel : envVarsGet env sessionBackendEnvVar "" ≠ "redis") :
    sessionSwitch env cf w s12 = fileCase env s12 := by
  unfold sessionSwitch
  rw [if_neg hsel]

/-- A successful resolution hands the freshly constructed pool on. -/
theorem redisCase_ok {env : Env} {cf : Option CFApp} {w : World} {s12 : Settings}
    {addr pw : String} (h : getRedisSettings env cf = .ok (addr, pw)) :
    redisCase env cf w s12 = redisCaseWithPool env w s12 (mkRedisPool addr pw) := by
  unfold redisCase
  rw [h]

/-- With the session key present and the store constructor succeeding, the
redis arm installs the store and health check and continues. -/
theorem redisCaseWithPool_none {env : Env} {w : World} {s12 : Settings} {pool : RedisPool}
    (h8 : osGetenv env sessionKeyEnvVar ≠ "") (hw : w.newRediStoreErr = none) :
    redisCaseWithPool env w s12 pool =
      afterBackend env
        { s12 with
          sessions := some (buildRedisStore pool s12.secureCookies
            (osGetenv env sessionKeyEnvVar)),
          sessionBackend := "redis",
          sessionBackendHealthCheck := some (.redisPing pool) }
        [.createdRedisPool, .createdRedisStore] := by
  unfold redisCaseWithPool
  rw [if_neg h8, hw]

/-! ## Claims -/

/-- C1 counterexample: on the invalid-combination failure the receiver keeps
every field assigned before the failing step, so the caller can observe a
partially constructed configuration next to the returned error.  The
environment omits both boolean flags, so `LocalCF = SecureCookies = false`. -/
theorem claim_C1_counterexample :
    errOf (initSettingsGo (removeKey baseEnvFile secureCookiesEnvVar) none w0 defaultSettings)
      = some (.simple insecureCookiesMsg) ∧
    (settingsOf (initSettingsGo (removeKey baseEnvFile secureCookiesEnvVar) none w0 defaultSettings)).appURL
      = "https://console.example.gov" ∧
    "https://console.example.gov" ≠ "" :=
  ⟨rfl, rfl, by decide⟩

/-- C1 (amended): whenever `InitSettings` stops at the secure-cookies
safeguard, the caller receives only an error (no panic, no success), but the
receiver `Settings` object retains every field assigned before the failing
step — partial construction is observable through the receiver, though no
session backend is installed beyond what the caller passed in. -/
theorem claim_C1 (env : Env) (cf : Option CFApp) (w : World) (s0 : Settings)
    (h1 : osGetenv env hostnameEnvVar ≠ "") (h2 : osGetenv env apiURLEnvVar ≠ "")
    (h3 : osGetenv env loginURLEnvVar ≠ "") (h4 : osGetenv env uaaURLEnvVar ≠ "")
    (h5 : osGetenv env logURLEnvVar ≠ "")
    (hl : boolGet env localCFEnvVar = false) (hs : boolGet env secureCookiesEnvVar = false) :
    isPanic (initSettingsGo env cf w s0) = false ∧
    errOf (initSettingsGo env cf w s0) = some (.simple insecureCookiesMsg) ∧
    (settingsOf (initSettingsGo env cf w s0)).appURL = osGetenv env hostnameEnvVar ∧
    (settingsOf (initSettingsGo env cf w s0)).consoleAPI = osGetenv env apiURLEnvVar ∧
    (settingsOf (initSettingsGo env cf w s0)).loginURL = osGetenv env loginURLEnvVar ∧
    (settingsOf (initSettingsGo env cf w s0)).uaaURL = osGetenv env uaaURLEnvVar ∧
    (settingsOf (initSettingsGo env cf w s0)).logURL = osGetenv env logURLEnvVar ∧
    (settingsOf (initSettingsGo env cf w s0)).sessions = s0.sessions := by
  rw [initSettings_insecure env cf w s0 h1 h2 h3 h4 h5 hl hs]
  exact ⟨rfl, rfl, rfl, rfl, rfl, rfl, rfl, rfl⟩

/-- Witness for C1 at a concrete environment omitting both flags. -/
theorem claim_C1_witness :
    isPanic (initSettingsGo envInsecure none w0 defaultSettings) = false ∧
    errOf (initSettingsGo envInsecure none w0 defaultSettings)
      = some (.simple insecureCookiesMsg) ∧
    (settingsOf (initSettingsGo envInsecure none w0 defaultSettings)).appURL
      = osGetenv envInsecure hostnameEnvVar ∧
    (settingsOf (initSettingsGo envInsecure none w0 defaultSettings)).consoleAPI
      = osGetenv envInsecure apiURLEnvVar ∧
    (settingsOf (initSettingsGo envInsecure none w0 defaultSettings)).loginURL
      = osGetenv envInsecure loginURLEnvVar ∧
    (settingsOf (initSettingsGo envInsecure none w0 defaultSettings)).uaaURL
      = osGetenv envInsecure uaaURLEnvVar ∧
    (settingsOf (initSettingsGo envInsecure none w0 defaultSettings)).logURL
      = osGetenv envInsecure logURLEnvVar ∧
    (settingsOf (initSettingsGo envInsecure none w0 defaultSettings)).sessions
      = defaultSettings.sessions :=
  claim_C1 envInsecure none w0 defaultSettings (by decide) (by decide) (by decide)
    (by decide) (by decide) (by decide) (by decide)

/-- C2: in any environment whose five leading required variables are present
and whose local-target and secure-cookies flags are both false,
`InitSettings` fails with the invalid-configuration-combination error, and
no session backend object — pool or store — has been constructed (empty
event list, sessions untouched). -/
theorem claim_C2 (env : Env) (cf : Option CFApp) (w : World) (s0 : Settings)
    (h1 : osGetenv env hostnameEnvVar ≠ "") (h2 : osGetenv env apiURLEnvVar ≠ "")
    (h3 : osGetenv env loginURLEnvVar ≠ "") (h4 : osGetenv env uaaURLEnvVar ≠ "")
    (h5 : osGetenv env logURLEnvVar ≠ "")
    (hl : boolGet env localCFEnvVar = false) (hs : boolGet env secureCookiesEnvVar = false) :
    errOf (initSettingsGo env cf w s0) = some (.simple insecureCookiesMsg) ∧
    isPanic (initSettingsGo env cf w s0) = false ∧
    eventsOf (initSettingsGo env cf w s0) = [] ∧
    (settingsOf (initSettingsGo env cf w s0)).sessions = s0.sessions ∧
    (settingsOf (initSettingsGo env cf w s0)).sessionBackendHealthCheck
      = s0.sessionBackendHealthCheck := by
  rw [initSettings_insecure env cf w s0 h1 h2 h3 h4 h5 hl hs]
  exact ⟨rfl, rfl, rfl, rfl, rfl⟩

/-- Witness for C2 at a concrete environment omitting both flags. -/
theorem claim_C2_witness :
    errOf (initSettingsGo envInsecure none w0 defaultSettings)
      = some (.simple insecureCookiesMsg) ∧
    isPanic (initSettingsGo envInsecure none w0 defaultSettings) = false ∧
    eventsOf (initSettingsGo envInsecure none w0 defaultSettings) = [] ∧
    (settingsOf (initSettingsGo envInsecure none w0 defaultSettings)).sessions
      = defaultSettings.sessions ∧
    (settingsOf (initSettingsGo envInsecure none w0 defaultSettings)).sessionBackendHealthCheck
      = defaultSettings.sessionBackendHealthCheck :=
  claim_C2 envInsecure none w0 defaultSettings (by decide) (by decide) (by decide)
    (by decide) (by decide) (by decide) (by decide)

/-- C3: the resolution chain is ordered and deterministic.  (1) When the
direct `REDIS_URI` variable is set (non-empty) the result is independent of
the service binding — the direct URI wins.  (2) With no direct URI and a
binding whose redis-tagged service carries the string `uri` credential of
the spec example, that URI is used: host `cachehost:6380`, password
`secret`.  (3) With no direct URI and a service lookup that yields no usable
URI (an error, or an empty uri string), the resolver returns the fixed local
default `localhost:6379` with an empty password. -/
theorem claim_C3 :
    (∀ (env : Env) (cf cf' : Option CFApp), osGetenv env "REDIS_URI" ≠ "" →
      getRedisSettings env cf = getRedisSettings env cf') ∧
    getRedisSettings [] cfURI = .ok ("cachehost:6380", "secret") ∧
    (∀ (env : Env) (cf : Option CFApp), osGetenv env "REDIS_URI" = "" →
      ((∃ e, getRedisService cf = .error e) ∨ getRedisService cf = .ok "") →
      getRedisSettings env cf = .ok ("localhost:6379", "")) := by
  refine ⟨?_, rfl, ?_⟩
  · intro env cf cf' h
    unfold getRedisSettings
    dsimp only
    rw [if_neg h, if_neg h]
  · intro env cf h hsvc
    unfold getRedisSettings
    dsimp only
    rw [if_pos h]
    rcases hsvc with ⟨e, he⟩ | he
    · rw [he]
      rfl
    · rw [he]
      rfl

/-- Witness for C3: a set direct URI beats two different bindings; the
example binding yields the example host and password; an unusable binding
falls back to the local default. -/
theorem claim_C3_witness :
    getRedisSettings [("REDIS_URI", "redis://:pw@h:1")] cfOld
      = getRedisSettings [("REDIS_URI", "redis://:pw@h:1")] cfURI ∧
    getRedisSettings [] cfURI = .ok ("cachehost:6380", "secret") ∧
    getRedisSettings [] cfOld = .ok ("localhost:6379", "") :=
  ⟨claim_C3.1 [("REDIS_URI", "redis://:pw@h:1")] cfOld cfURI (by decide),
   claim_C3.2.1,
   claim_C3.2.2 [] cfOld rfl
     (Or.inl ⟨.simple "Could not parse redis uri", rfl⟩)⟩

/-- C4: the dial closure of the redis pool issues `AUTH` after a successful
connect whenever the password is non-empty, but because line 169 tests the
captured outer `err` (nil once the pool exists — first conjunct) instead of
`authErr`, a failing `AUTH` still yields a usable connection, no error, and
no close: the code contradicts the documented behaviour at this input. -/
theorem claim_C4 :
    (mkRedisPool "localhost:6379" "secret").dialCapturedErr = none ∧
    redisDialFn "localhost:6379" "secret" none
        { dialErr := none,
          authErr := some (.simple "NOAUTH Authentication required."),
          pingErr := none }
      = { conn := some { authSent := true }, err := none, closedConn := false } :=
  ⟨rfl, rfl⟩

/-- C5 counterexample: with a redis-tagged service whose credentials lack the
`uri` and all three legacy fields, the inner error names a `"host"` key (not
`hostname`), `getRedisService` replaces it with the generic message, and
`getRedisSettings` swallows the error entirely by falling back to the local
default — nothing propagates to the Orchestrator. -/
theorem claim_C5_counterexample :
    getRedisURIFromParts svcOld = .error (.simple "Could not find \"host\" key") ∧
    getRedisService cfOld = .error (.simple "Could not parse redis uri") ∧
    getRedisSettings [] cfOld = .ok ("localhost:6379", "") :=
  ⟨rfl, rfl, rfl⟩

/-- C5 (amended): legacy reconstruction checks `hostname`, `port`,
`password` in that order and fails with an error naming the missing key
(the `hostname` error says `"host"`); but `getRedisService` replaces any
such error with the generic `Could not parse redis uri`, and
`getRedisSettings` then swallows the service error entirely by falling back
to the local default, so no credential error ever propagates to the
Orchestrator. -/
theorem claim_C5 :
    (∀ svc : Service, credString svc "hostname" = none →
      getRedisURIFromParts svc = .error (.simple "Could not find \"host\" key")) ∧
    (∀ (svc : Service) (h : String), credString svc "hostname" = some h →
      credString svc "port" = none →
      getRedisURIFromParts svc = .error (.simple "Could not find \"port\" key")) ∧
    (∀ (svc : Service) (h p : String), credString svc "hostname" = some h →
      credString svc "port" = some p → credString svc "password" = none →
      getRedisURIFromParts svc = .error (.simple "Could not find \"password\" key")) ∧
    (∀ svc : Service, svc.tags = ["redis"] → credString svc "uri" = none →
      (∃ e, getRedisURIFromParts svc = .error e) →
      getRedisService (some { services := [svc] }) =
        .error (.simple "Could not parse redis uri")) ∧
    (∀ (env : Env) (cf : Option CFApp) (e : GoError),
      osGetenv env "REDIS_URI" = "" → getRedisService cf = .error e →
      getRedisSettings env cf = .ok ("localhost:6379", "")) := by
  refine ⟨?_, ?_, ?_, ?_, ?_⟩
  · intro svc h
    unfold getRedisURIFromParts
    rw [h]
  · intro svc hv h1 h2
    unfold getRedisURIFromParts
    rw [h1, h2]
  · intro svc hv pv h1 h2 h3
    unfold getRedisURIFromParts
    rw [h1, h2, h3]
  · intro svc htags huri ⟨e, he⟩
    unfold getRedisService withTag
    dsimp only
    have hfilter : [svc].filter (fun s => s.tags.any (fun t => eqFold t "redis")) = [svc] := by
      simp [List.filter, htags, eqFold]
    rw [hfilter]
    dsimp only
    rw [huri]
    dsimp only
    rw [he]
  · intro env cf e h he
    unfold getRedisSettings
    dsimp only
    rw [if_pos h, he]
    rfl

/-- Witness for C5: each missing legacy field produces its named error; the
empty-credential service gets the generic replacement; the resolver then
falls back to the default. -/
theorem claim_C5_witness :
    getRedisURIFromParts svcOld = .error (.simple "Could not find \"host\" key") ∧
    getRedisURIFromParts svcHostOnly = .error (.simple "Could not find \"port\" key") ∧
    getRedisURIFromParts svcHostPort = .error (.simple "Could not find \"password\" key") ∧
    getRedisService (some { services := [svcOld] }) =
      .error (.simple "Could not parse redis uri") ∧
    getRedisSettings [] cfOld = .ok ("localhost:6379", "") :=
  ⟨claim_C5.1 svcOld rfl,
   claim_C5.2.1 svcHostOnly "legacy-host" rfl rfl,
   claim_C5.2.2.1 svcHostPort "legacy-host" "6379" rfl rfl rfl,
   claim_C5.2.2.2.1 svcOld rfl rfl ⟨.simple "Could not find \"host\" key", rfl⟩,
   claim_C5.2.2.2.2 [] cfOld (.simple "Could not parse redis uri") rfl rfl⟩

/-- C6 counterexample: omitting only `SMTP_FROM` makes `InitSettings` fail
with the error naming that field, but the file session store has already
been constructed and is observable on the receiver. -/
theorem claim_C6_counterexample :
    errOf (initSettingsGo (removeKey baseEnvFile smtpFromEnvVar) none w0 defaultSettings)
      = some (.missingEnvVar smtpFromEnvVar) ∧
    eventsOf (initSettingsGo (removeKey baseEnvFile smtpFromEnvVar) none w0 defaultSettings)
      = [.createdFileStore] ∧
    (settingsOf (initSettingsGo (removeKey baseEnvFile smtpFromEnvVar) none w0 defaultSettings)).sessions
      = some (buildFileStore true "skey") :=
  ⟨rfl, rfl, rfl⟩

/-- C6 (amended): omitting any one required variable fails with the
missing-variable error naming that variable.  For the variables read before
backend construction no backend object is created; but omitting `SMTP_FROM`
or `SMTP_HOST` fails only after the session store was built, and with the
redis backend selected, omitting `SESSION_KEY` fails after the pool object
was created. -/
theorem claim_C6 :
    (errOf (initSettingsGo (removeKey baseEnvFile hostnameEnvVar) none w0 defaultSettings)
        = some (.missingEnvVar hostnameEnvVar) ∧
      eventsOf (initSettingsGo (removeKey baseEnvFile hostnameEnvVar) none w0 defaultSettings) = []) ∧
    (errOf (initSettingsGo (removeKey baseEnvFile apiURLEnvVar) none w0 defaultSettings)
        = some (.missingEnvVar apiURLEnvVar) ∧
      eventsOf (initSettingsGo (removeKey baseEnvFile apiURLEnvVar) none w0 defaultSettings) = []) ∧
    (errOf (initSettingsGo (removeKey baseEnvFile loginURLEnvVar) none w0 defaultSettings)
        = some (.missingEnvVar loginURLEnvVar) ∧
      eventsOf (initSettingsGo (removeKey baseEnvFile loginURLEnvVar) none w0 defaultSettings) = []) ∧
    (errOf (initSettingsGo (removeKey baseEnvFile uaaURLEnvVar) none w0 defaultSettings)
        = some (.missingEnvVar uaaURLEnvVar) ∧
      eventsOf (initSettingsGo (removeKey baseEnvFile uaaURLEnvVar) none w0 defaultSettings) = []) ∧
    (errOf (initSettingsGo (removeKey baseEnvFile logURLEnvVar) none w0 defaultSettings)
        = some (.missingEnvVar logURLEnvVar) ∧
      eventsOf (initSettingsGo (removeKey baseEnvFile logURLEnvVar) none w0 defaultSettings) = []) ∧
    (errOf (initSettingsGo (removeKey baseEnvFile clientIDEnvVar) none w0 defaultSettings)
        = some (.missingEnvVar clientIDEnvVar) ∧
      eventsOf (initSettingsGo (removeKey baseEnvFile clientIDEnvVar) none w0 defaultSettings) = []) ∧
    (errOf (initSettingsGo (removeKey baseEnvFile clientSecretEnvVar) none w0 defaultSettings)
        = some (.missingEnvVar clientSecretEnvVar) ∧
      eventsOf (initSettingsGo (removeKey baseEnvFile clientSecretEnvVar) none w0 defaultSettings) = []) ∧
    (errOf (initSettingsGo (removeKey baseEnvFile sessionKeyEnvVar) none w0 defaultSettings)
        = some (.missingEnvVar sessionKeyEnvVar) ∧
      eventsOf (initSettingsGo (removeKey baseEnvFile sessionKeyEnvVar) none w0 defaultSettings) = []) ∧
    (errOf (initSettingsGo (removeKey baseEnvFile smtpFromEnvVar) none w0 defaultSettings)
        = some (.missingEnvVar smtpFromEnvVar) ∧
      eventsOf (initSettingsGo (removeKey baseEnvFile smtpFromEnvVar) none w0 defaultSettings)
        = [.createdFileStore]) ∧
    (errOf (initSettingsGo (removeKey baseEnvFile smtpHostEnvVar) none w0 defaultSettings)
        = some (.missingEnvVar smtpHostEnvVar) ∧
      eventsOf (initSettingsGo (removeKey baseEnvFile smtpHostEnvVar) none w0 defaultSettings)
        = [.createdFileStore]) ∧
    (errOf (initSettingsGo (removeKey baseEnvRedis sessionKeyEnvVar) none w0 defaultSettings)
        = some (.missingEnvVar sessionKeyEnvVar) ∧
      eventsOf (initSettingsGo (removeKey baseEnvRedis sessionKeyEnvVar) none w0 defaultSettings)
        = [.createdRedisPool]) :=
  ⟨⟨rfl, rfl⟩, ⟨rfl, rfl⟩, ⟨rfl, rfl⟩, ⟨rfl, rfl⟩, ⟨rfl, rfl⟩, ⟨rfl, rfl⟩,
   ⟨rfl, rfl⟩, ⟨rfl, rfl⟩, ⟨rfl, rfl⟩, ⟨rfl, rfl⟩, ⟨rfl, rfl⟩⟩

/-- C9: whenever the backend selector is not `"redis"` (unset or
unrecognized) and the run succeeds, the constructed store is the filesystem
store with entries capped at 16384 bytes (16 KiB), cookie options http-only,
path `/`, max-age 604800 seconds, the secure flag taken from the
configuration — and the installed health probe returns true on every
invocation regardless of the state of the world. -/
theorem claim_C9 (env : Env) (cf : Option CFApp) (w : World) (s0 : Settings)
    (h1 : osGetenv env hostnameEnvVar ≠ "") (h2 : osGetenv env apiURLEnvVar ≠ "")
    (h3 : osGetenv env loginURLEnvVar ≠ "") (h4 : osGetenv env uaaURLEnvVar ≠ "")
    (h5 : osGetenv env logURLEnvVar ≠ "")
    (hflag : ¬(boolGet env localCFEnvVar = false ∧ boolGet env secureCookiesEnvVar = false))
    (h6 : osGetenv env clientIDEnvVar ≠ "") (h7 : osGetenv env clientSecretEnvVar ≠ "")
    (hsel : envVarsGet env sessionBackendEnvVar "" ≠ "redis")
    (h8 : osGetenv env sessionKeyEnvVar ≠ "")
    (h9 : osGetenv env smtpFromEnvVar ≠ "") (h10 : osGetenv env smtpHostEnvVar ≠ "") :
    (∃ s : Settings, initSettingsGo env cf w s0 = .returned s [.createdFileStore] none ∧
      s.sessions = some (.filesystemStore "" 16384
        { httpOnly := true, maxAge := 604800, path := "/",
          secure := boolGet env secureCookiesEnvVar }
        (osGetenv env sessionKeyEnvVar)) ∧
      s.sessionBackend = "file" ∧
      s.sessionBackendHealthCheck = some .alwaysTrue) ∧
    (∀ cw : ConnWorld, runHealthCheck .alwaysTrue cw = true) := by
  refine ⟨?_, fun _ => rfl⟩
  unfold initSettingsGo
  rw [if_neg h1, if_neg h2, if_neg h3, if_neg h4, if_neg h5, if_neg hflag,
    if_neg h6, if_neg h7, if_neg h3, if_neg h4, sessionSwitch_file hsel]
  unfold fileCase
  rw [if_neg h8]
  unfold afterBackend
  rw [if_neg h6, if_neg h7, if_neg h4, if_neg h9, if_neg h10]
  exact ⟨_, rfl, rfl, rfl, rfl⟩

/-- Witness for C9: the complete file-backend environment. -/
theorem claim_C9_witness :
    (∃ s : Settings,
      initSettingsGo baseEnvFile none w0 defaultSettings
        = .returned s [.createdFileStore] none ∧
      s.sessions = some (.filesystemStore "" 16384
        { httpOnly := true, maxAge := 604800, path := "/",
          secure := boolGet baseEnvFile secureCookiesEnvVar }
        (osGetenv baseEnvFile sessionKeyEnvVar)) ∧
      s.sessionBackend = "file" ∧
      s.sessionBackendHealthCheck = some .alwaysTrue) ∧
    (∀ cw : ConnWorld, runHealthCheck .alwaysTrue cw = true) :=
  claim_C9 baseEnvFile none w0 defaultSettings (by decide) (by decide) (by decide)
    (by decide) (by decide) (by decide) (by decide) (by decide) (by decide)
    (by decide) (by decide) (by decide)

/-- C7 counterexample: the password `a/b` is non-empty and contains neither
`@` nor `:`, yet parsing `redis://:a/b@cachehost:6380` fails entirely — the
slash ends the authority early, leaving `:a` as host, whose port check
fails — so the round trip does not reproduce host and password. -/
theorem claim_C7_counterexample :
    ("a/b" : String) ≠ "" ∧ '@' ∉ "a/b".toList ∧ ':' ∉ "a/b".toList ∧
    hostAndPassword "redis://:a/b@cachehost:6380".toList
      = .error (.urlError "parse" "redis://:a/b@cachehost:6380"
          (.simple "invalid port after host")) ∧
    (∀ hp : List Char × List Char,
      hostAndPassword "redis://:a/b@cachehost:6380".toList ≠ .ok hp) :=
  ⟨by decide, by decide, by decide, rfl, fun hp h => Except.noConfusion h⟩

/-- C7 (amended): parsing `scheme://:password@host:port` and reading back
host and password reproduces exactly `host:port` and `password`, for every
password made of unreserved URI characters (letters, digits, `-`, `.`, `_`,
`~`), every such host, and every digit port; passwords containing URI
delimiters such as `/` can break the round trip (see the counterexample). -/
theorem claim_C7 (pw host port : List Char)
    (_hpw0 : pw ≠ []) (hpw : pw.all isUnreservedChar = true)
    (hhost : host.all isUnreservedChar = true)
    (_hport0 : port ≠ []) (hport : port.all Char.isDigit = true) :
    hostAndPassword
        (['r', 'e', 'd', 'i', 's', ':', '/', '/', ':'] ++ (pw ++ '@' :: (host ++ ':' :: port)))
      = .ok (host ++ ':' :: port, pw) := by
  -- character exclusions derived from the charset bounds
  have hpwq : ∀ c : Char, isUnreservedChar c = false → c ∉ pw :=
    fun c hc => not_mem_of_all hpw hc
  have hhostq : ∀ c : Char, isUnreservedChar c = false → c ∉ host :=
    fun c hc => not_mem_of_all hhost hc
  have hportq : ∀ c : Char, c.isDigit = false → c ∉ port :=
    fun c hc => not_mem_of_all hport hc
  have hT : ∀ c : Char, isUnreservedChar c = false → c.isDigit = false → c ≠ ':' →
      c ∉ host ++ ':' :: port := by
    intro c h1 h2 h3 hm
    rcases List.mem_append.mp hm with hm | hm
    · exact hhostq c h1 hm
    · rcases List.mem_cons.mp hm with hm | hm
      · exact h3 hm
      · exact hportq c h2 hm
  have hfull : ∀ c : Char,
      c ∉ (['r', 'e', 'd', 'i', 's', ':', '/', '/', ':'] : List Char) →
      isUnreservedChar c = false → c.isDigit = false → c ≠ '@' → c ≠ ':' →
      c ∉ ['r', 'e', 'd', 'i', 's', ':', '/', '/', ':'] ++ (pw ++ '@' :: (host ++ ':' :: port)) := by
    intro c hA h1 h2 h3 h4 hm
    rcases List.mem_append.mp hm with hm | hm
    · exact hA hm
    rcases List.mem_append.mp hm with hm | hm
    · exact hpwq c h1 hm
    rcases List.mem_cons.mp hm with hm | hm
    · exact h3 hm
    · exact hT c h1 h2 h4 hm
  have hhash : '#' ∉ ['r', 'e', 'd', 'i', 's', ':', '/', '/', ':'] ++ (pw ++ '@' :: (host ++ ':' :: port)) :=
    hfull '#' (by decide) (by decide) (by decide) (by decide) (by decide)
  -- the tail after the scheme
  have hquery : '?' ∉ ('/' :: '/' :: ':' :: (pw ++ '@' :: (host ++ ':' :: port))) := by
    intro hm
    rcases List.mem_cons.mp hm with hm | hm; exact absurd hm (by decide)
    rcases List.mem_cons.mp hm with hm | hm; exact absurd hm (by decide)
    rcases List.mem_cons.mp hm with hm | hm; exact absurd hm (by decide)
    rcases List.mem_append.mp hm with hm | hm
    · exact hpwq '?' (by decide) hm
    rcases List.mem_cons.mp hm with hm | hm; exact absurd hm (by decide)
    exact hT '?' (by decide) (by decide) (by decide) hm
  have hslash : '/' ∉ (':' :: (pw ++ '@' :: (host ++ ':' :: port))) := by
    intro hm
    rcases List.mem_cons.mp hm with hm | hm; exact absurd hm (by decide)
    rcases List.mem_append.mp hm with hm | hm
    · exact hpwq '/' (by decide) hm
    rcases List.mem_cons.mp hm with hm | hm; exact absurd hm (by decide)
    exact hT '/' (by decide) (by decide) (by decide) hm
  have hatT : '@' ∉ host ++ ':' :: port := hT '@' (by decide) (by decide) (by decide)
  have hcolport : ':' ∉ port := hportq ':' (by decide)
  have hpctpw : '%' ∉ pw := hpwq '%' (by decide)
  have hpctT : '%' ∉ host ++ ':' :: port := hT '%' (by decide) (by decide) (by decide)
  have hbrT : '[' ∉ host ++ ':' :: port := hT '[' (by decide) (by decide) (by decide)
  -- parseHost on the host:port part
  have hph : parseHost (host ++ ':' :: port) = .ok (host ++ ':' :: port) := by
    unfold parseHost
    rw [if_neg (fun h => hbrT (mem_of_take_one_eq h))]
    rw [lastSplit_append hcolport]
    dsimp only
    have hvp : validOptionalPort (':' :: port) = true := hport
    rw [if_pos hvp]
    exact unescapeList_of_no_pct hpctT
  -- parseAuthority on the authority part
  have hauth : parseAuthority (':' :: (pw ++ '@' :: (host ++ ':' :: port)))
      = .ok (some { username := [], password := some pw }, host ++ ':' :: port) := by
    unfold parseAuthority
    have hls : lastSplit '@' (':' :: (pw ++ '@' :: (host ++ ':' :: port)))
        = some (':' :: pw, host ++ ':' :: port) :=
      @lastSplit_append '@' (':' :: pw) (host ++ ':' :: port) hatT
    rw [hls]
    dsimp only
    rw [hph]
    dsimp only
    have hcf : cutFirst ':' (':' :: pw) = some ([], pw) := rfl
    rw [hcf]
    dsimp only [unescapeList]
    rw [unescapeList_of_no_pct hpctpw]
  -- assemble the full parse
  unfold hostAndPassword urlParse
  rw [splitCut_eq_self hhash]
  dsimp only
  unfold urlParseRaw
  have hscheme : getScheme
      (['r', 'e', 'd', 'i', 's', ':', '/', '/', ':'] ++ (pw ++ '@' :: (host ++ ':' :: port)))
      = .ok (['r', 'e', 'd', 'i', 's'],
          '/' :: '/' :: ':' :: (pw ++ '@' :: (host ++ ':' :: port))) := rfl
  rw [hscheme]
  dsimp only
  have hlow : (['r', 'e', 'd', 'i', 's'] : List Char).map Char.toLower
      = ['r', 'e', 'd', 'i', 's'] := by decide
  rw [hlow]
  rw [if_neg (fun hc => hquery (mem_of_getLast?_eq_some
    (And.left (of_eq_true (eq_true hc)))))]
  rw [splitCut_eq_self hquery]
  dsimp only
  rw [if_pos (show List.take 1 ('/' :: '/' :: ':' :: (pw ++ '@' :: (host ++ ':' :: port)))
    = ['/'] from rfl)]
  unfold afterAuthority
  rw [if_pos (And.intro
    (show List.take 2 ('/' :: '/' :: ':' :: (pw ++ '@' :: (host ++ ':' :: port)))
      = ['/', '/'] from rfl)
    (Or.inl (show (['r', 'e', 'd', 'i', 's'] : List Char) ≠ [] by decide)))]
  have hdrop : ('/' :: '/' :: ':' :: (pw ++ '@' :: (host ++ ':' :: port))).drop 2
      = ':' :: (pw ++ '@' :: (host ++ ':' :: port)) := rfl
  rw [hdrop, splitKeep_eq_self hslash]
  dsimp only
  rw [hauth]
  dsimp only [unescapeList]
  rfl

/-- Witness for C7 at the spec example password, host and port. -/
theorem claim_C7_witness :
    hostAndPassword
        (['r', 'e', 'd', 'i', 's', ':', '/', '/', ':'] ++
          ("secret".toList ++ '@' :: ("cachehost".toList ++ ':' :: "6380".toList)))
      = .ok ("cachehost".toList ++ ':' :: "6380".toList, "secret".toList) :=
  claim_C7 "secret".toList "cachehost".toList "6380".toList (by decide) (by decide)
    (by decide) (by decide) (by decide)

/-- C8: on the redis path the connection pool is always the literal of lines
149-176: 10 maximum idle connections, a 240-second idle timeout, a dial
closure capturing the resolved address and password (and the nil outer
error), connect, read and write timeouts of 10 seconds each on every dial,
and a borrow-validation closure that issues `PING` and returns its error. -/
theorem claim_C8 (env : Env) (cf : Option CFApp) (w : World) (s0 : Settings)
    (addr pw : String)
    (h1 : osGetenv env hostnameEnvVar ≠ "") (h2 : osGetenv env apiURLEnvVar ≠ "")
    (h3 : osGetenv env loginURLEnvVar ≠ "") (h4 : osGetenv env uaaURLEnvVar ≠ "")
    (h5 : osGetenv env logURLEnvVar ≠ "")
    (hflag : ¬(boolGet env localCFEnvVar = false ∧ boolGet env secureCookiesEnvVar = false))
    (h6 : osGetenv env clientIDEnvVar ≠ "") (h7 : osGetenv env clientSecretEnvVar ≠ "")
    (hsel : envVarsGet env sessionBackendEnvVar "" = "redis")
    (hred : getRedisSettings env cf = .ok (addr, pw))
    (h8 : osGetenv env sessionKeyEnvVar ≠ "")
    (hw : w.newRediStoreErr = none)
    (h9 : osGetenv env smtpFromEnvVar ≠ "") (h10 : osGetenv env smtpHostEnvVar ≠ "") :
    (∃ s : Settings,
      initSettingsGo env cf w s0 = .returned s [.createdRedisPool, .createdRedisStore] none ∧
      s.sessions = some (.redisStore (mkRedisPool addr pw) 16384
        { httpOnly := true, maxAge := 604800, path := "/",
          secure := boolGet env secureCookiesEnvVar }
        (osGetenv env sessionKeyEnvVar)) ∧
      s.sessionBackendHealthCheck = some (.redisPing (mkRedisPool addr pw))) ∧
    mkRedisPool addr pw =
      { maxIdle := 10, idleTimeoutSeconds := 240, dialAddress := addr,
        dialPassword := pw, dialCapturedErr := none } ∧
    redisDialOpts =
      { connectTimeoutSeconds := 10, readTimeoutSeconds := 10, writeTimeoutSeconds := 10 } ∧
    (∀ cw : ConnWorld, testOnBorrowFn cw = cw.pingErr) := by
  refine ⟨?_, rfl, rfl, fun _ => rfl⟩
  unfold initSettingsGo
  rw [if_neg h1, if_neg h2, if_neg h3, if_neg h4, if_neg h5, if_neg hflag,
    if_neg h6, if_neg h7, if_neg h3, if_neg h4, sessionSwitch_redis hsel,
    redisCase_ok hred, redisCaseWithPool_none h8 hw]
  unfold afterBackend
  rw [if_neg h6, if_neg h7, if_neg h4, if_neg h9, if_neg h10]
  exact ⟨_, rfl, rfl, rfl⟩

/-- Witness for C8: the complete redis-backend environment; with no binding
and no direct URI the resolver yields the local default. -/
theorem claim_C8_witness :
    (∃ s : Settings,
      initSettingsGo baseEnvRedis none w0 defaultSettings
        = .returned s [.createdRedisPool, .createdRedisStore] none ∧
      s.sessions = some (.redisStore (mkRedisPool "localhost:6379" "") 16384
        { httpOnly := true, maxAge := 604800, path := "/",
          secure := boolGet baseEnvRedis secureCookiesEnvVar }
        (osGetenv baseEnvRedis sessionKeyEnvVar)) ∧
      s.sessionBackendHealthCheck = some (.redisPing (mkRedisPool "localhost:6379" ""))) ∧
    mkRedisPool "localhost:6379" "" =
      { maxIdle := 10, idleTimeoutSeconds := 240, dialAddress := "localhost:6379",
        dialPassword := "", dialCapturedErr := none } ∧
    redisDialOpts =
      { connectTimeoutSeconds := 10, readTimeoutSeconds := 10, writeTimeoutSeconds := 10 } ∧
    (∀ cw : ConnWorld, testOnBorrowFn cw = cw.pingErr) :=
  claim_C8 baseEnvRedis none w0 defaultSettings "localhost:6379" "" (by decide)
    (by decide) (by decide) (by decide) (by decide) (by decide) (by decide)
    (by decide) (by decide) rfl (by decide) rfl (by decide) (by decide)

/-- C10: the recovery boundary of `InitSettings` converts a raised value
into an error result exactly when it is of the missing-environment-variable
error type; any other raised value is re-raised and escapes as a panic.
`PanicValue` has exactly these two shapes, so the two conjuncts are
exhaustive. -/
theorem claim_C10 :
    (∀ (n : String) (s : Settings) (ev : List Event),
      mkPanicResult s ev (.errMissingEnvVar n) = .returned s ev (some (.missingEnvVar n))) ∧
    (∀ (t : String) (s : Settings) (ev : List Event),
      mkPanicResult s ev (.otherValue t) = .panicked s ev (.otherValue t)) :=
  ⟨fun _ _ _ => rfl, fun _ _ _ => rfl⟩

end CFDeck
